import Mathlib

/-!
Verification of the session/scenario registry core of the playwright MCP
server (`src/index.js`), as a shallow embedding in Lean.

Modelling conventions:
* JS `Map` (insertion-ordered, unique string keys) is an association list
  `List (String × α)` with `mapSet` (overwrite in place or append),
  `mapGet` (first match) and `mapDelete` (remove the entry with the key).
* Timestamps (`new Date().toISOString()`) are an abstract `Nat` clock
  passed explicitly to every operation that reads the clock.
* JS truthiness of optional string arguments (`if (args.phase)`,
  `role || 'participant'`) is modelled explicitly: `none` and the empty
  string are falsy.
* The browser/context/page driver handles are external resources; the only
  driver behaviour the registry layer observes is whether
  `context.close()` / `browser.close()` throws, modelled by the session
  field `closeFails` (with the thrown message in `closeErrorMessage`).
  Page operations (navigation, screenshots, evaluate) are external and not
  modelled.
* Tool handlers return a text content block, with `isError := true` when
  the top-level catch in the `CallToolRequestSchema` handler is reached.
-/

namespace PWServer

/-- Model of an arbitrary JSON-ish value stored in `customData`,
`testParameters`, etc. The registry logic never inspects values, only
keys, so a small value universe suffices. -/
inductive JsValue where
  | num (n : Int)
  | str (s : String)
  | boolean (b : Bool)
deriving DecidableEq, Repr

/-- A JS object used as a string-keyed record (`customData`,
`testParameters`): insertion-ordered association list. -/
abbrev JsObj := List (String × JsValue)

/-- JS `Map.get` / first matching key. -/
def mapGet {α : Type} : List (String × α) → String → Option α
  | [], _ => none
  | kv :: rest, k => if kv.1 = k then some kv.2 else mapGet rest k

/-- JS `Map.set`: overwrite an existing key in place, else append. -/
def mapSet {α : Type} : List (String × α) → String → α → List (String × α)
  | [], k, v => [(k, v)]
  | kv :: rest, k, v => if kv.1 = k then (k, v) :: rest else kv :: mapSet rest k v

/-- JS `Map.delete`: remove the entry with the key (keys are unique in a
JS `Map`, so removing every occurrence coincides with removing the one
entry). -/
def mapDelete {α : Type} (m : List (String × α)) (k : String) : List (String × α) :=
  m.filter (fun kv => kv.1 ≠ k)

/-- JS `Map.has`. -/
def mapHas {α : Type} (m : List (String × α)) (k : String) : Bool :=
  (mapGet m k).isSome

/-- JS `x || d` for an optional string `x`: `none` and `""` are falsy. -/
def jsOr (v : Option String) (d : String) : String :=
  match v with
  | some s => if s = "" then d else s
  | none => d

/-- JS truthiness of an optional string value. -/
def truthyStr (v : Option String) : Bool :=
  match v with
  | some s => s ≠ ""
  | none => false

/-- `Object.assign(target, updates)` on string-keyed objects: each update
key (in key order) overwrites in place if present, else is appended —
the same overwrite-or-append step as `mapSet`. -/
def objAssign (target updates : JsObj) : JsObj :=
  updates.foldl (fun acc kv => mapSet acc kv.1 kv.2) target

/-- Lookup in a JS object. -/
def getKey (o : JsObj) (k : String) : Option JsValue :=
  mapGet o k

/-- The `push`-then-`shift` bounded-buffer idiom used by every capture
buffer in the source: append, and if the length now exceeds `cap`, drop
the oldest element. -/
def pushShift {α : Type} (cap : Nat) (buf : List α) (x : α) : List α :=
  if (buf ++ [x]).length > cap then (buf ++ [x]).tail else buf ++ [x]

/-- The `{phase?, customData?}` update payload of
`TestScenario.updateState` / `update_scenario_state`. -/
structure StateUpdates where
  phase : Option String := none
  customData : Option JsObj := none
deriving DecidableEq, Repr

/-- The payload of a scenario event (`this.events` entries carry the raw
data object passed to `logEvent`). -/
inductive EventData where
  | sessionJoined (sessionId : String) (role label : Option String)
  | sessionLeft (sessionId : String) (role label : String)
  | stateUpdated (updates : StateUpdates)
deriving DecidableEq, Repr

/-- One entry of `TestScenario.events`. -/
structure ScenarioEvent where
  timestamp : Nat
  type : String
  data : EventData
deriving DecidableEq, Repr

/-- One entry of `TestScenario.sessions` (the membership map). -/
structure MemberInfo where
  role : String
  label : String
  status : String
  joinedAt : Nat
deriving DecidableEq, Repr

/-- `TestScenario.metadata`. -/
structure ScenarioMetadata where
  name : String
  description : String
  experimentName : String
  testParameters : JsObj
  tags : List String
deriving DecidableEq, Repr

/-- `TestScenario.state`. -/
structure ScenarioState where
  phase : String
  customData : JsObj
deriving DecidableEq, Repr

/-- The `TestScenario` class. -/
structure TestScenario where
  scenarioId : String
  createdAt : Nat
  metadata : ScenarioMetadata
  sessions : List (String × MemberInfo)
  state : ScenarioState
  events : List ScenarioEvent
deriving DecidableEq, Repr

/-- Arguments of the `TestScenario` constructor (the `metadata` object
passed to `new TestScenario(id, metadata)`; every field is optional). -/
structure ScenarioCtorArgs where
  name : Option String := none
  description : Option String := none
  experimentName : Option String := none
  testParameters : Option JsObj := none
  tags : Option (List String) := none
  initialState : Option JsObj := none
deriving DecidableEq, Repr

/-- The `TestScenario` constructor: defaults every metadata field, starts
in phase `created` with `customData = metadata.initialState || {}`, an
empty membership map and an empty event log. -/
def TestScenario.create (id : String) (now : Nat) (m : ScenarioCtorArgs) : TestScenario :=
  { scenarioId := id
    createdAt := now
    metadata :=
      { name := jsOr m.name "Unnamed Scenario"
        description := jsOr m.description ""
        experimentName := jsOr m.experimentName ""
        testParameters := m.testParameters.getD []
        tags := m.tags.getD [] }
    sessions := []
    state := { phase := "created", customData := m.initialState.getD [] }
    events := [] }

/-- `TestScenario.logEvent(type, data)`: push the event, keep only the
last 500 entries (`if (this.events.length > 500) this.events.shift()`). -/
def TestScenario.logEvent (s : TestScenario) (now : Nat) (type : String)
    (data : EventData) : TestScenario :=
  let events := s.events ++ [{ timestamp := now, type := type, data := data }]
  { s with events := if events.length > 500 then events.tail else events }

/-- `TestScenario.addSession(sessionId, role, label)`: insert/overwrite
the membership entry with defaulted role/label, `status='active'`, and
log a `session_joined` event carrying the raw arguments. -/
def TestScenario.addSession (s : TestScenario) (now : Nat) (sessionId : String)
    (role label : Option String) : TestScenario :=
  let info : MemberInfo :=
    { role := jsOr role "participant"
      label := jsOr label sessionId
      status := "active"
      joinedAt := now }
  let s := { s with sessions := mapSet s.sessions sessionId info }
  s.logEvent now "session_joined" (.sessionJoined sessionId role label)

/-- `TestScenario.removeSession(sessionId)`: if the membership entry is
present, delete it and log a `session_left` event with the stored
role/label; otherwise do nothing (no event). -/
def TestScenario.removeSession (s : TestScenario) (now : Nat)
    (sessionId : String) : TestScenario :=
  match mapGet s.sessions sessionId with
  | some info =>
    let s := { s with sessions := mapDelete s.sessions sessionId }
    s.logEvent now "session_left" (.sessionLeft sessionId info.role info.label)
  | none => s

/-- `TestScenario.updateState(updates)`: `if (updates.phase)` replaces
the phase (JS truthiness: `none`/`""` are skipped); `if
(updates.customData)` merges via `Object.assign` into
`state.customData`; always logs a `state_updated` event with the raw
update payload. -/
def TestScenario.updateState (s : TestScenario) (now : Nat)
    (u : StateUpdates) : TestScenario :=
  let s :=
    if truthyStr u.phase then
      { s with state := { s.state with phase := (u.phase).getD s.state.phase } }
    else s
  let s :=
    match u.customData with
    | some cd => { s with state := { s.state with customData := objAssign s.state.customData cd } }
    | none => s
  s.logEvent now "state_updated" (.stateUpdated u)

/-- The summary object returned by `TestScenario.getSummary()`. -/
structure ScenarioSummary where
  scenarioId : String
  createdAt : Nat
  metadata : ScenarioMetadata
  state : ScenarioState
  sessionCount : Nat
  sessions : List (String × MemberInfo)
  eventCount : Nat
deriving DecidableEq, Repr

/-- `TestScenario.getSummary()`: a read-only projection. -/
def TestScenario.getSummary (s : TestScenario) : ScenarioSummary :=
  { scenarioId := s.scenarioId
    createdAt := s.createdAt
    metadata := s.metadata
    state := s.state
    sessionCount := s.sessions.length
    sessions := s.sessions
    eventCount := s.events.length }

/-- One entry of `session.consoleLogs` (the `page.on('console')`
listener payload). -/
structure ConsoleEntry where
  type : String
  text : String
  timestamp : Nat
  url : String
  args : Nat
deriving DecidableEq, Repr

/-- One entry of `session.errors` (unbounded). -/
structure ErrorEntry where
  message : String
  detail : String
  timestamp : Nat
  url : String
deriving DecidableEq, Repr

/-- One entry of `session.networkRequests` (the `page.on('request')`
listener payload). -/
structure NetworkEntry where
  type : String
  method : String
  url : String
  resourceType : String
  timestamp : Nat
deriving DecidableEq, Repr

/-- One entry of `session.consoleHistory` (command history pushed by the
`console` tool handler). -/
structure CommandEntry where
  command : String
  timestamp : Nat
  url : String
deriving DecidableEq, Repr

/-- One entry of `session.screenshots`. -/
structure ScreenshotMeta where
  filename : String
  action : String
  timestamp : Nat
  url : String
deriving DecidableEq, Repr

/-- A persistent session object (`persistentSessions` map values).
`browser`/`context`/`page` are external driver handles; the only
behaviour of theirs this layer observes is whether closing them throws
(`closeFails`, with the thrown message `closeErrorMessage`). -/
structure Session where
  recordScreenshots : Bool := false
  debugMode : Bool := false
  screenshots : List ScreenshotMeta := []
  consoleLogs : List ConsoleEntry := []
  errors : List ErrorEntry := []
  networkRequests : List NetworkEntry := []
  consoleHistory : List CommandEntry := []
  scenarioId : Option String := none
  role : Option String := none
  label : Option String := none
  closeFails : Bool := false
  closeErrorMessage : String := ""
deriving DecidableEq, Repr

/-- The process-wide mutable state: the `persistentSessions` and
`testScenarios` maps. -/
structure ServerState where
  persistentSessions : List (String × Session) := []
  testScenarios : List (String × TestScenario) := []
deriving DecidableEq, Repr

/-- A tool handler's returned content: the text block, and whether the
top-level catch produced it (`isError: true`). -/
structure ToolResult where
  text : String
  isError : Bool := false
deriving DecidableEq, Repr

/-- The `scenarioInfo` object built by the `start_session` handler. -/
structure ScenarioInfo where
  scenarioId : String
  role : String
  label : String
deriving DecidableEq, Repr

/-- The fresh session object constructed inside `getOrCreateSession`
(empty capture buffers, flags off, scenario metadata from
`scenarioInfo?.field || null`). A newly launched driver handle is
modelled as closable (`closeFails := false`). -/
def freshSession (scenarioInfo : Option ScenarioInfo) : Session :=
  { recordScreenshots := false
    debugMode := false
    screenshots := []
    consoleLogs := []
    errors := []
    networkRequests := []
    consoleHistory := []
    scenarioId := scenarioInfo.bind (fun i => if i.scenarioId = "" then none else some i.scenarioId)
    role := scenarioInfo.bind (fun i => if i.role = "" then none else some i.role)
    label := scenarioInfo.bind (fun i => if i.label = "" then none else some i.label)
    closeFails := false
    closeErrorMessage := "" }

/-- `getOrCreateSession(sessionId, headless, scenarioInfo)`: return the
existing session if `sessionId` is truthy and registered; otherwise
build a fresh session, register it under `sessionId` when truthy, and —
only when `scenarioInfo?.scenarioId` is truthy and names an existing
scenario — call `TestScenario.addSession` on it. The browser launch is
external and not modelled. -/
def getOrCreateSession (st : ServerState) (now : Nat) (sessionId : Option String)
    (scenarioInfo : Option ScenarioInfo) : ServerState × Session :=
  let existing : Option Session :=
    match sessionId with
    | some sid => if sid = "" then none else mapGet st.persistentSessions sid
    | none => none
  match existing with
  | some session => (st, session)
  | none =>
    let session := freshSession scenarioInfo
    match sessionId with
    | none => (st, session)
    | some sid =>
      if sid = "" then (st, session)
      else
        let st := { st with persistentSessions := mapSet st.persistentSessions sid session }
        let st :=
          match scenarioInfo with
          | some info =>
            if info.scenarioId = "" then st
            else
              match mapGet st.testScenarios info.scenarioId with
              | some scenario =>
                let scenario := scenario.addSession now sid (some info.role) (some info.label)
                { st with testScenarios := mapSet st.testScenarios info.scenarioId scenario }
              | none => st
          | none => st
        (st, session)

/-- Arguments of the `start_session` tool. -/
structure StartSessionArgs where
  scenarioId : Option String := none
  role : Option String := none
  label : Option String := none
  headless : Option Bool := none
  url : Option String := none
  recordScreenshots : Option Bool := none
  debugMode : Option Bool := none
deriving DecidableEq, Repr

/-- Outcome of the `start_session` handler: the new server state, the
returned content, and the generated session id echoed in the response
text. -/
structure StartOutcome where
  state : ServerState
  result : ToolResult
  sessionId : String
deriving DecidableEq, Repr

/-- The `start_session` handler. `newSessionId` stands for the value of
`generateSessionId()`. Builds `scenarioInfo` only when `args.scenarioId`
is truthy, creates and registers the session via `getOrCreateSession`,
then sets `recordScreenshots`/`debugMode` on the (aliased, so written
back) session object. Navigation (`args.url`) and the screenshot
directory are external effects, not modelled. -/
def startSession (st : ServerState) (now : Nat) (newSessionId : String)
    (args : StartSessionArgs) : StartOutcome :=
  let scenarioInfo : Option ScenarioInfo :=
    match args.scenarioId with
    | some scid =>
      if scid = "" then none
      else some { scenarioId := scid, role := jsOr args.role "participant", label := jsOr args.label newSessionId }
    | none => none
  let pair := getOrCreateSession st now (some newSessionId) scenarioInfo
  let st1 := pair.1
  let session := pair.2
  let session :=
    { session with recordScreenshots := args.recordScreenshots.getD false, debugMode := args.debugMode.getD false }
  let st2 :=
    if newSessionId = "" then st1
    else { st1 with persistentSessions := mapSet st1.persistentSessions newSessionId session }
  { state := st2
    result := { text := "Started session: " ++ newSessionId, isError := false }
    sessionId := newSessionId }

/-- The membership-removal prologue of the `end_session` handler: when
`session.scenarioId` is truthy and names an existing scenario, call
`TestScenario.removeSession` on it (mutation in place, modelled as a
write-back); otherwise leave the state unchanged. -/
def detachFromScenario (st : ServerState) (now : Nat) (sessionId : String)
    (session : Session) : ServerState :=
  match session.scenarioId with
  | some scid =>
    if scid = "" then st
    else
      match mapGet st.testScenarios scid with
      | some scenario =>
        { st with testScenarios := mapSet st.testScenarios scid (scenario.removeSession now sessionId) }
      | none => st
  | none => st

/-- The `end_session` handler: NotFound text if the id is not
registered; otherwise remove the scenario membership first
(`detachFromScenario`), then attempt `context.close()`/`browser.close()`
— if that throws, the top-level catch returns an error result and the
`persistentSessions.delete` line is never reached; on success, delete
the registry entry. -/
def endSession (st : ServerState) (now : Nat) (sessionId : String) :
    ServerState × ToolResult :=
  match mapGet st.persistentSessions sessionId with
  | none => (st, { text := "Session not found: " ++ sessionId, isError := false })
  | some session =>
    let st1 := detachFromScenario st now sessionId session
    if session.closeFails then
      (st1, { text := "Error: " ++ session.closeErrorMessage, isError := true })
    else
      ({ st1 with persistentSessions := mapDelete st1.persistentSessions sessionId },
        { text := "Closed session: " ++ sessionId, isError := false })

/-- The predicate of the `list_sessions` filters: `if (args.scenarioId
&& session.scenarioId !== args.scenarioId) continue;` and the same for
`role` — a falsy filter argument disables that filter. -/
def sessionMatchesFilters (s : Session) (scenarioId role : Option String) : Bool :=
  (match scenarioId with
   | some a => if a = "" then true else decide (s.scenarioId = some a)
   | none => true)
  &&
  (match role with
   | some a => if a = "" then true else decide (s.role = some a)
   | none => true)

/-- The `list_sessions` handler, structurally: the registry entries (in
iteration order) that pass the filters. The source renders each entry as
a text line from page url/title (external, not modelled). -/
def listSessions (st : ServerState) (scenarioId role : Option String) :
    List (String × Session) :=
  st.persistentSessions.filter (fun kv => sessionMatchesFilters kv.2 scenarioId role)

/-- The `get_test_scenario` handler, structurally: `none` when the id is
unknown (the source renders the `Scenario not found:` text), otherwise
the `getSummary()` projection (the source renders it as text). -/
def getTestScenario (st : ServerState) (scenarioId : String) : Option ScenarioSummary :=
  (mapGet st.testScenarios scenarioId).map TestScenario.getSummary

/-- The `update_scenario_state` handler: NotFound text if the scenario
is unknown, otherwise `scenario.updateState({phase: args.phase,
customData: args.customData})` (the object is mutated in place, modelled
as a write-back). -/
def updateScenarioState (st : ServerState) (now : Nat) (scenarioId : String)
    (phase : Option String) (customData : Option JsObj) :
    ServerState × ToolResult :=
  match mapGet st.testScenarios scenarioId with
  | none => (st, { text := "Scenario not found: " ++ scenarioId, isError := false })
  | some scenario =>
    let scenario := scenario.updateState now { phase := phase, customData := customData }
    ({ st with testScenarios := mapSet st.testScenarios scenarioId scenario },
      { text := "Updated scenario " ++ scenarioId, isError := false })

/-- The `for (const sessionId of sessionIds)` loop of the
`end_test_scenario` handler: for each id present in the registry, await
the driver close — a throw aborts the whole loop (and the handler) with
the thrown message, leaving the failing session registered — otherwise
delete the registry entry and increment `closedCount`. Returns the
registry as mutated so far, the count, and the thrown message if any. -/
def closeLoop : List (String × Session) → List String → Nat →
    List (String × Session) × Nat × Option String
  | ps, [], count => (ps, count, none)
  | ps, id :: rest, count =>
    match mapGet ps id with
    | none => closeLoop ps rest count
    | some session =>
      if session.closeFails then (ps, count, some session.closeErrorMessage)
      else closeLoop (mapDelete ps id) rest (count + 1)

/-- Outcome of the `end_test_scenario` handler: the new server state,
the returned content, the handler-local `closedCount` (reported in the
success text), and the handler-local `scenario` object as it stands when
the handler returns (in the source it survives on the heap after the
registry `delete`). -/
structure EndScenarioOutcome where
  state : ServerState
  result : ToolResult
  closedCount : Nat
  scenarioObj : Option TestScenario
deriving DecidableEq, Repr

/-- The `end_test_scenario` handler: NotFound text if the scenario is
unknown; otherwise iterate a snapshot `Array.from(scenario.sessions.keys())`
closing each registered member (no try/catch inside the loop: a member's
close failure propagates to the top-level catch, skipping the state
update and the registry delete); on full success set
`phase = 'completed'` via `updateState` and delete the scenario. -/
def endTestScenario (st : ServerState) (now : Nat) (scenarioId : String) :
    EndScenarioOutcome :=
  match mapGet st.testScenarios scenarioId with
  | none =>
    { state := st
      result := { text := "Scenario not found: " ++ scenarioId, isError := false }
      closedCount := 0
      scenarioObj := none }
  | some scenario =>
    let sessionIds := scenario.sessions.map Prod.fst
    match closeLoop st.persistentSessions sessionIds 0 with
    | (ps, count, some msg) =>
      { state := { st with persistentSessions := ps }
        result := { text := "Error: " ++ msg, isError := true }
        closedCount := count
        scenarioObj := some scenario }
    | (ps, count, none) =>
      let scenario := scenario.updateState now { phase := some "completed", customData := none }
      { state := { persistentSessions := ps, testScenarios := mapDelete st.testScenarios scenarioId }
        result :=
          { text := "Ended test scenario: " ++ scenarioId ++ "\nClosed " ++ toString count
              ++ " sessions\nScenario data has been preserved for analysis"
            isError := false }
        closedCount := count
        scenarioObj := some scenario }

/-- The `page.on('console')` listener body: push the entry onto
`session.consoleLogs`, keeping only the last 100. -/
def consoleListener (session : Session) (entry : ConsoleEntry) : Session :=
  let logs := session.consoleLogs ++ [entry]
  { session with consoleLogs := if logs.length > 100 then logs.tail else logs }

/-- The `page.on('pageerror')` listener body: unbounded push onto
`session.errors`. -/
def pageErrorListener (session : Session) (entry : ErrorEntry) : Session :=
  { session with errors := session.errors ++ [entry] }

/-- The `page.on('request')` listener body: when `debugMode` is on, push
the entry onto `session.networkRequests`, keeping only the last 200. -/
def requestListener (session : Session) (entry : NetworkEntry) : Session :=
  if session.debugMode then
    let reqs := session.networkRequests ++ [entry]
    { session with networkRequests := if reqs.length > 200 then reqs.tail else reqs }
  else session

/-- The command-history push of the `console` tool handler: push onto
`session.consoleHistory`, keeping only the last 100. -/
def consoleCommandRecord (session : Session) (entry : CommandEntry) : Session :=
  let h := session.consoleHistory ++ [entry]
  { session with consoleHistory := if h.length > 100 then h.tail else h }

/-- Folding `TestScenario.logEvent` over a list of prebuilt events. -/
def logEvents (s : TestScenario) (es : List ScenarioEvent) : TestScenario :=
  es.foldl (fun s e => s.logEvent e.timestamp e.type e.data) s

/-! ### Association-list (JS `Map`) lemmas -/

theorem mapGet_set_self {α : Type} (m : List (String × α)) (k : String) (v : α) :
    mapGet (mapSet m k v) k = some v := by
  induction m with
  | nil => simp [mapSet, mapGet]
  | cons kv rest ih =>
    by_cases h : kv.1 = k
    · simp [mapSet, mapGet, h]
    · simp [mapSet, mapGet, h, ih]

theorem mapGet_set_ne {α : Type} (m : List (String × α)) (k k' : String) (v : α)
    (h : k' ≠ k) : mapGet (mapSet m k v) k' = mapGet m k' := by
  have h' : k ≠ k' := Ne.symm h
  induction m with
  | nil => simp [mapSet, mapGet, h']
  | cons kv rest ih =>
    by_cases hk : kv.1 = k
    · simp [mapSet, mapGet, hk, h']
    · simp only [mapSet, hk, if_false, mapGet]
      by_cases hk' : kv.1 = k'
      · simp [mapGet, hk']
      · simp [mapGet, hk', ih]

theorem mapGet_delete_self {α : Type} (m : List (String × α)) (k : String) :
    mapGet (mapDelete m k) k = none := by
  induction m with
  | nil => rfl
  | cons kv rest ih =>
    by_cases h : kv.1 = k
    · simpa [mapDelete, List.filter_cons, h] using ih
    · simpa [mapDelete, List.filter_cons, h, mapGet] using ih

theorem mapGet_delete_ne {α : Type} (m : List (String × α)) (k k' : String)
    (h : k' ≠ k) : mapGet (mapDelete m k) k' = mapGet m k' := by
  have h' : k ≠ k' := Ne.symm h
  induction m with
  | nil => rfl
  | cons kv rest ih =>
    by_cases hk : kv.1 = k
    · simpa [mapDelete, List.filter_cons, hk, mapGet, h, h'] using ih
    · by_cases hk' : kv.1 = k'
      · simp [mapDelete, List.filter_cons, hk, mapGet, hk', h, h']
      · simpa [mapDelete, List.filter_cons, hk, mapGet, hk'] using ih

theorem mapSet_of_absent {α : Type} (m : List (String × α)) (k : String) (v : α)
    (h : mapGet m k = none) : mapSet m k v = m ++ [(k, v)] := by
  induction m with
  | nil => rfl
  | cons kv rest ih =>
    by_cases hk : kv.1 = k
    · simp [mapGet, hk] at h
    · simp only [mapGet, hk, if_false] at h
      simp [mapSet, hk, ih h]

theorem mapGet_mem {α : Type} (m : List (String × α)) (k : String) (v : α)
    (h : mapGet m k = some v) : (k, v) ∈ m := by
  induction m with
  | nil => simp [mapGet] at h
  | cons kv rest ih =>
    rcases kv with ⟨k1, v1⟩
    by_cases hk : k1 = k
    · simp only [mapGet, hk, if_true] at h
      have hv : v1 = v := by simpa using h
      subst hk
      subst hv
      exact List.mem_cons_self _ _
    · simp only [mapGet, hk, if_false] at h
      exact List.mem_cons_of_mem _ (ih h)

/-! ### RingBuffer (push-then-shift) lemmas -/

theorem pushShift_foldl {α : Type} (cap : Nat) (hcap : 0 < cap) (items : List α) :
    List.foldl (pushShift cap) [] items = items.drop (items.length - cap) := by
  induction items using List.reverseRecOn with
  | nil => simp
  | append_singleton l x ih =>
    rw [List.foldl_append, List.foldl_cons, List.foldl_nil, ih]
    by_cases h : l.length < cap
    · have h0 : l.length - cap = 0 := Nat.sub_eq_zero_of_le (Nat.le_of_lt h)
      have h1 : (l ++ [x]).length - cap = 0 := by
        simp only [List.length_append, List.length_singleton]
        omega
      rw [h0, List.drop_zero, h1, List.drop_zero]
      have hle : ¬ (l ++ [x]).length > cap := by
        simp only [List.length_append, List.length_singleton]
        omega
      rw [pushShift, if_neg hle]
    · have hge : cap ≤ l.length := Nat.le_of_not_lt h
      have hdlen : (l.drop (l.length - cap)).length = cap := by
        rw [List.length_drop]
        omega
      have hgt : (l.drop (l.length - cap) ++ [x]).length > cap := by
        simp only [List.length_append, hdlen, List.length_singleton]
        omega
      rw [pushShift, if_pos hgt]
      have h1 : (l ++ [x]).length - cap = l.length + 1 - cap := by
        simp only [List.length_append, List.length_singleton]
      rw [h1]
      rw [List.drop_append_of_le_length (by omega : l.length + 1 - cap ≤ l.length)]
      rw [← List.drop_one, List.drop_append_of_le_length (by omega : 1 ≤ (l.drop (l.length - cap)).length)]
      rw [List.drop_drop]
      have h2 : l.length - cap + 1 = l.length + 1 - cap := by omega
      rw [h2]

theorem pushShift_length_le {α : Type} (cap : Nat) (hcap : 0 < cap) (items : List α) :
    (List.foldl (pushShift cap) [] items).length ≤ cap := by
  rw [pushShift_foldl cap hcap, List.length_drop]
  omega

/-! ### Bridge lemmas: each capture path is an instance of `pushShift` -/

theorem consoleListener_logs (s : Session) (e : ConsoleEntry) :
    (consoleListener s e).consoleLogs = pushShift 100 s.consoleLogs e := rfl

theorem foldl_consoleListener (es : List ConsoleEntry) (s : Session) :
    (es.foldl consoleListener s).consoleLogs = List.foldl (pushShift 100) s.consoleLogs es := by
  induction es generalizing s with
  | nil => rfl
  | cons e rest ih =>
    rw [List.foldl_cons, List.foldl_cons, ih, consoleListener_logs]

theorem consoleCommandRecord_history (s : Session) (e : CommandEntry) :
    (consoleCommandRecord s e).consoleHistory = pushShift 100 s.consoleHistory e := rfl

theorem foldl_consoleCommandRecord (es : List CommandEntry) (s : Session) :
    (es.foldl consoleCommandRecord s).consoleHistory =
      List.foldl (pushShift 100) s.consoleHistory es := by
  induction es generalizing s with
  | nil => rfl
  | cons e rest ih =>
    rw [List.foldl_cons, List.foldl_cons, ih, consoleCommandRecord_history]

theorem requestListener_debugMode (s : Session) (e : NetworkEntry) :
    (requestListener s e).debugMode = s.debugMode := by
  by_cases h : s.debugMode <;> simp [requestListener, h]

theorem requestListener_requests (s : Session) (e : NetworkEntry) (h : s.debugMode = true) :
    (requestListener s e).networkRequests = pushShift 200 s.networkRequests e := by
  simp [requestListener, h, pushShift]

theorem foldl_requestListener (es : List NetworkEntry) (s : Session) (h : s.debugMode = true) :
    (es.foldl requestListener s).networkRequests =
      List.foldl (pushShift 200) s.networkRequests es := by
  induction es generalizing s with
  | nil => rfl
  | cons e rest ih =>
    rw [List.foldl_cons, List.foldl_cons,
      ih _ (by rw [requestListener_debugMode, h]), requestListener_requests _ _ h]

theorem logEvent_events (s : TestScenario) (e : ScenarioEvent) :
    (s.logEvent e.timestamp e.type e.data).events = pushShift 500 s.events e := rfl

theorem logEvents_events (es : List ScenarioEvent) (s : TestScenario) :
    (logEvents s es).events = List.foldl (pushShift 500) s.events es := by
  induction es generalizing s with
  | nil => rfl
  | cons e rest ih =>
    show (logEvents _ rest).events = _
    rw [List.foldl_cons, ih, logEvent_events]

/-! ### Helper lemmas on `TestScenario` operations -/

theorem logEvent_state (s : TestScenario) (now : Nat) (t : String) (d : EventData) :
    (s.logEvent now t d).state = s.state := rfl

theorem logEvent_sessions (s : TestScenario) (now : Nat) (t : String) (d : EventData) :
    (s.logEvent now t d).sessions = s.sessions := rfl

theorem updateState_sessions (s : TestScenario) (now : Nat) (u : StateUpdates) :
    (s.updateState now u).sessions = s.sessions := by
  by_cases hp : truthyStr u.phase <;>
    cases hcd : u.customData <;>
      simp [TestScenario.updateState, TestScenario.logEvent, hp, hcd]

theorem updateState_phase_of_truthy (s : TestScenario) (now : Nat) (u : StateUpdates)
    (p : String) (hp : u.phase = some p) (hne : p ≠ "") :
    (s.updateState now u).state.phase = p := by
  have ht : truthyStr (some p) = true := by simp [truthyStr, hne]
  cases hcd : u.customData <;>
    simp [TestScenario.updateState, TestScenario.logEvent, ht, hcd, hp]

theorem updateState_phase_of_falsy (s : TestScenario) (now : Nat) (u : StateUpdates)
    (h : truthyStr u.phase = false) :
    (s.updateState now u).state.phase = s.state.phase := by
  cases hcd : u.customData <;>
    simp [TestScenario.updateState, TestScenario.logEvent, h, hcd]

theorem updateState_customData_of_some (s : TestScenario) (now : Nat) (u : StateUpdates)
    (cd : JsObj) (h : u.customData = some cd) :
    (s.updateState now u).state.customData = objAssign s.state.customData cd := by
  by_cases hp : truthyStr u.phase <;>
    simp [TestScenario.updateState, TestScenario.logEvent, hp, h]

theorem updateState_customData_of_none (s : TestScenario) (now : Nat) (u : StateUpdates)
    (h : u.customData = none) :
    (s.updateState now u).state.customData = s.state.customData := by
  by_cases hp : truthyStr u.phase <;>
    simp [TestScenario.updateState, TestScenario.logEvent, hp, h]

theorem removeSession_get_self (s : TestScenario) (now : Nat) (sid : String) :
    mapGet (s.removeSession now sid).sessions sid = none := by
  cases h : mapGet s.sessions sid with
  | none => simp [TestScenario.removeSession, h]
  | some info =>
    simp [TestScenario.removeSession, h, TestScenario.logEvent, mapGet_delete_self]

theorem mapGet_of_not_mem_keys {α : Type} (m : List (String × α)) (k : String)
    (h : k ∉ m.map Prod.fst) : mapGet m k = none := by
  induction m with
  | nil => rfl
  | cons kv rest ih =>
    simp only [List.map_cons, List.mem_cons] at h
    push_neg at h
    simp [mapGet, Ne.symm h.1, ih h.2]

theorem getKey_objAssign (t cd : JsObj) (hnd : (cd.map Prod.fst).Nodup) (k : String) :
    getKey (objAssign t cd) k =
      match getKey cd k with
      | some v => some v
      | none => getKey t k := by
  induction cd generalizing t with
  | nil => simp [objAssign, getKey, mapGet]
  | cons kv rest ih =>
    rcases kv with ⟨k1, v1⟩
    simp only [List.map_cons, List.nodup_cons] at hnd
    have hstep : objAssign t ((k1, v1) :: rest) = objAssign (mapSet t k1 v1) rest := rfl
    rw [hstep, ih _ hnd.2]
    by_cases hk : k1 = k
    · subst hk
      have hrest : getKey rest k1 = none := mapGet_of_not_mem_keys _ _ hnd.1
      simp only [getKey, mapGet, if_pos rfl]
      rw [show mapGet rest k1 = none from hrest]
      simp [mapGet_set_self]
    · simp only [getKey, mapGet, if_neg hk]
      cases hr : mapGet rest k with
      | some v => simp
      | none => simp [mapGet_set_ne t k1 k v1 (Ne.symm hk)]

theorem removeSession_of_absent (s : TestScenario) (now : Nat) (sid : String)
    (h : mapGet s.sessions sid = none) : s.removeSession now sid = s := by
  simp [TestScenario.removeSession, h]

/-! ### Claim theorems -/

/-- C4: Bounded-buffer eviction. For each capture buffer of capacity `K`
(console log `K=100`, network log `K=200`, scenario event log `K=500`,
command history `K=100`), pushing `K+M` items into an initially empty
buffer leaves exactly the last `K` items pushed, in insertion order
(oldest evicted first), and the buffer length never exceeds `K`. -/
theorem C4_ring_buffer_eviction :
    (∀ (M : Nat) (s : Session) (es : List ConsoleEntry), s.consoleLogs = [] →
        es.length = 100 + M → (es.foldl consoleListener s).consoleLogs = es.drop M)
    ∧ (∀ (M : Nat) (s : Session) (es : List NetworkEntry), s.debugMode = true →
        s.networkRequests = [] → es.length = 200 + M →
        (es.foldl requestListener s).networkRequests = es.drop M)
    ∧ (∀ (M : Nat) (sc : TestScenario) (es : List ScenarioEvent), sc.events = [] →
        es.length = 500 + M → (logEvents sc es).events = es.drop M)
    ∧ (∀ (M : Nat) (s : Session) (es : List CommandEntry), s.consoleHistory = [] →
        es.length = 100 + M → (es.foldl consoleCommandRecord s).consoleHistory = es.drop M)
    ∧ (∀ (s : Session) (es : List ConsoleEntry), s.consoleLogs = [] →
        (es.foldl consoleListener s).consoleLogs.length ≤ 100)
    ∧ (∀ (s : Session) (es : List NetworkEntry), s.debugMode = true →
        s.networkRequests = [] → (es.foldl requestListener s).networkRequests.length ≤ 200)
    ∧ (∀ (sc : TestScenario) (es : List ScenarioEvent), sc.events = [] →
        (logEvents sc es).events.length ≤ 500)
    ∧ (∀ (s : Session) (es : List CommandEntry), s.consoleHistory = [] →
        (es.foldl consoleCommandRecord s).consoleHistory.length ≤ 100) := by
  refine ⟨?_, ?_, ?_, ?_, ?_, ?_, ?_, ?_⟩
  · intro M s es hemp hlen
    rw [foldl_consoleListener, hemp, pushShift_foldl 100 (by omega), hlen]
    have h : 100 + M - 100 = M := by omega
    rw [h]
  · intro M s es hdbg hemp hlen
    rw [foldl_requestListener es s hdbg, hemp, pushShift_foldl 200 (by omega), hlen]
    have h : 200 + M - 200 = M := by omega
    rw [h]
  · intro M sc es hemp hlen
    rw [logEvents_events, hemp, pushShift_foldl 500 (by omega), hlen]
    have h : 500 + M - 500 = M := by omega
    rw [h]
  · intro M s es hemp hlen
    rw [foldl_consoleCommandRecord, hemp, pushShift_foldl 100 (by omega), hlen]
    have h : 100 + M - 100 = M := by omega
    rw [h]
  · intro s es hemp
    rw [foldl_consoleListener, hemp]
    exact pushShift_length_le 100 (by omega) es
  · intro s es hdbg hemp
    rw [foldl_requestListener es s hdbg, hemp]
    exact pushShift_length_le 200 (by omega) es
  · intro sc es hemp
    rw [logEvents_events, hemp]
    exact pushShift_length_le 500 (by omega) es
  · intro s es hemp
    rw [foldl_consoleCommandRecord, hemp]
    exact pushShift_length_le 100 (by omega) es

/-- A sample console-listener entry used by concrete witness states. -/
def sampleConsoleEntry : ConsoleEntry :=
  { type := "log", text := "m", timestamp := 0, url := "u", args := 0 }

/-- Witness for C4 at a concrete input: 101 pushes into the empty
console-log buffer keep the last 100 entries. -/
theorem C4_witness :
    ((List.replicate 101 sampleConsoleEntry).foldl consoleListener
        ({} : Session)).consoleLogs = (List.replicate 101 sampleConsoleEntry).drop 1 :=
  C4_ring_buffer_eviction.1 1 {} (List.replicate 101 sampleConsoleEntry) rfl (by simp)

/-- C5: customData merge semantics. `updateState` with a `customData`
object shallow-merges it into `state.customData` key by key (a key
present in the update wins, keys absent from the update are preserved);
in particular the `{a:1}`, `{b:2}`, `{a:3}` update chain yields
`{a:1,b:2}` and then `{a:3,b:2}`. -/
theorem C5_customData_merge :
    (∀ (sc : TestScenario) (now : Nat) (u : StateUpdates) (cd : JsObj),
        u.customData = some cd → (cd.map Prod.fst).Nodup →
        ∀ k : String,
          getKey ((sc.updateState now u).state.customData) k =
            match getKey cd k with
            | some v => some v
            | none => getKey sc.state.customData k)
    ∧ (∀ (sc : TestScenario) (n1 n2 n3 : Nat), sc.state.customData = [] →
        ((sc.updateState n1 ⟨none, some [("a", JsValue.num 1)]⟩).updateState n2
            ⟨none, some [("b", JsValue.num 2)]⟩).state.customData =
          [("a", JsValue.num 1), ("b", JsValue.num 2)]
        ∧ (((sc.updateState n1 ⟨none, some [("a", JsValue.num 1)]⟩).updateState n2
            ⟨none, some [("b", JsValue.num 2)]⟩).updateState n3
            ⟨none, some [("a", JsValue.num 3)]⟩).state.customData =
          [("a", JsValue.num 3), ("b", JsValue.num 2)]) := by
  constructor
  · intro sc now u cd h hnd k
    rw [updateState_customData_of_some sc now u cd h]
    exact getKey_objAssign _ _ hnd k
  · intro sc n1 n2 n3 hemp
    have h1 : (sc.updateState n1 ⟨none, some [("a", JsValue.num 1)]⟩).state.customData
        = [("a", JsValue.num 1)] := by
      rw [updateState_customData_of_some _ _ _ _ rfl, hemp]
      decide
    have h2 : ((sc.updateState n1 ⟨none, some [("a", JsValue.num 1)]⟩).updateState n2
        ⟨none, some [("b", JsValue.num 2)]⟩).state.customData
        = [("a", JsValue.num 1), ("b", JsValue.num 2)] := by
      rw [updateState_customData_of_some _ _ _ _ rfl, h1]
      decide
    refine ⟨h2, ?_⟩
    rw [updateState_customData_of_some _ _ _ _ rfl, h2]
    decide

/-- Witness for C5 at a concrete scenario (freshly constructed, so its
`customData` starts empty). -/
theorem C5_witness :
    (((TestScenario.create "S" 0 {}).updateState 1
          ⟨none, some [("a", JsValue.num 1)]⟩).updateState 2
        ⟨none, some [("b", JsValue.num 2)]⟩).state.customData
      = [("a", JsValue.num 1), ("b", JsValue.num 2)] :=
  (C5_customData_merge.2 (TestScenario.create "S" 0 {}) 1 2 3 rfl).1

/-- The registry state used by concrete C6 inputs: one scenario `S1`
freshly created (phase `created`). -/
def c6State : ServerState :=
  { persistentSessions := []
    testScenarios := [("S1", TestScenario.create "S1" 0 {})] }

/-- Counterexample to C6 as stated: `update_scenario_state` with the
provided phase string `""` does NOT replace `state.phase` (the source
guards with JS truthiness, `if (updates.phase)`), so not every provided
string becomes the new phase: the phase stays `created`. -/
theorem C6_counterexample :
    ((mapGet (updateScenarioState c6State 1 "S1" (some "") none).1.testScenarios "S1").map
        (fun sc => sc.state.phase)) = some "created"
    ∧ ("created" : String) ≠ "" := by
  constructor
  · rfl
  · decide

/-- C6 (amended): for every existing scenario, a provided non-empty
phase string — any string, with no validation against the phase enum —
replaces `state.phase`; a provided empty string is falsy and is ignored,
leaving the phase unchanged. -/
theorem C6_phase_replacement (st : ServerState) (now : Nat) (scid p : String)
    (sc : TestScenario) (h : mapGet st.testScenarios scid = some sc) :
    ((mapGet (updateScenarioState st now scid (some p) none).1.testScenarios scid).map
        (fun sc2 => sc2.state.phase)) =
      some (if p = "" then sc.state.phase else p) := by
  simp only [updateScenarioState, h]
  rw [mapGet_set_self]
  by_cases hp : p = ""
  · rw [if_pos hp]
    have hf : truthyStr (some p) = false := by simp [truthyStr, hp]
    simp [updateState_phase_of_falsy sc now ⟨some p, none⟩ hf]
  · rw [if_neg hp]
    simp [updateState_phase_of_truthy sc now ⟨some p, none⟩ p rfl hp]

/-- Witness for C6 (amended): an arbitrary out-of-enum string such as
`custom-phase` is stored as the phase. -/
theorem C6_witness :
    ((mapGet (updateScenarioState c6State 1 "S1" (some "custom-phase") none).1.testScenarios
        "S1").map (fun sc2 => sc2.state.phase)) =
      some (if "custom-phase" = "" then (TestScenario.create "S1" 0 {}).state.phase
        else "custom-phase") :=
  C6_phase_replacement c6State 1 "S1" "custom-phase" (TestScenario.create "S1" 0 {}) rfl

/-- C8: Idempotent removal. `removeSession` on an id with no membership
entry is an exact no-op (no event appended); removing the same id twice
equals removing it once; and `end_session` on an unregistered id leaves
the state unchanged and returns the non-error `Session not found`
result. -/
theorem C8_idempotent_removal :
    (∀ (sc : TestScenario) (now : Nat) (sid : String),
        mapGet sc.sessions sid = none → sc.removeSession now sid = sc)
    ∧ (∀ (sc : TestScenario) (n1 n2 : Nat) (sid : String),
        (sc.removeSession n1 sid).removeSession n2 sid = sc.removeSession n1 sid)
    ∧ (∀ (st : ServerState) (now : Nat) (sid : String),
        mapGet st.persistentSessions sid = none →
        endSession st now sid =
          (st, { text := "Session not found: " ++ sid, isError := false })) := by
  refine ⟨removeSession_of_absent, ?_, ?_⟩
  · intro sc n1 n2 sid
    exact removeSession_of_absent _ _ _ (removeSession_get_self sc n1 sid)
  · intro st now sid h
    simp [endSession, h]

/-- Witness for C8 at concrete inputs: removing an absent id from a
fresh scenario is a no-op, and `end_session` on an empty registry
returns the `Session not found` result unchanged. -/
theorem C8_witness :
    (TestScenario.create "S" 0 {}).removeSession 1 "x" = TestScenario.create "S" 0 {}
    ∧ endSession {} 0 "x" =
        ({}, { text := "Session not found: " ++ "x", isError := false }) :=
  ⟨C8_idempotent_removal.1 (TestScenario.create "S" 0 {}) 1 "x" rfl,
    C8_idempotent_removal.2.2 {} 0 "x" rfl⟩

/-- C7: Unscoped-creation leniency. `start_session` with a `scenarioId`
naming no registered scenario still creates and registers the session
under the returned id, reports no error, and adds no membership entry to
any scenario (the scenario registry is untouched). -/
theorem C7_unscoped_creation (st : ServerState) (now : Nat) (sid scid : String)
    (args : StartSessionArgs)
    (hargs : args.scenarioId = some scid) (hscid : scid ≠ "")
    (hnos : mapGet st.testScenarios scid = none)
    (hsid : sid ≠ "") (hfresh : mapGet st.persistentSessions sid = none) :
    (startSession st now sid args).sessionId = sid
    ∧ (mapGet (startSession st now sid args).state.persistentSessions sid).isSome = true
    ∧ (startSession st now sid args).result.isError = false
    ∧ (startSession st now sid args).state.testScenarios = st.testScenarios := by
  simp [startSession, getOrCreateSession, freshSession, hargs, hscid, hnos, hsid, hfresh,
    mapGet_set_self]

/-- Witness for C7: a concrete `start_session` against an empty registry
with an unknown `scenarioId`. -/
theorem C7_witness :
    (startSession {} 0 "sid1" { scenarioId := some "ghost" }).sessionId = "sid1"
    ∧ (mapGet (startSession {} 0 "sid1"
        { scenarioId := some "ghost" }).state.persistentSessions "sid1").isSome = true
    ∧ (startSession {} 0 "sid1" { scenarioId := some "ghost" }).result.isError = false
    ∧ (startSession {} 0 "sid1"
        { scenarioId := some "ghost" }).state.testScenarios = ServerState.testScenarios {} :=
  C7_unscoped_creation {} 0 "sid1" "ghost" { scenarioId := some "ghost" }
    rfl (by decide) rfl (by decide) rfl

/-- C10: a session created by `start_session` with a `scenarioId` that
names no existing scenario still stores that `scenarioId` and the
supplied role and label on the session object, and a subsequent
`list_sessions` filtered by that `scenarioId` includes it. -/
theorem C10_unscoped_session_listed (st : ServerState) (now : Nat)
    (sid scid r lb : String) (args : StartSessionArgs)
    (hargs : args.scenarioId = some scid) (hscid : scid ≠ "")
    (hrole : args.role = some r) (hr : r ≠ "")
    (hlabel : args.label = some lb) (hl : lb ≠ "")
    (hnos : mapGet st.testScenarios scid = none)
    (hsid : sid ≠ "") (hfresh : mapGet st.persistentSessions sid = none) :
    ∃ s : Session,
      mapGet (startSession st now sid args).state.persistentSessions sid = some s
      ∧ s.scenarioId = some scid ∧ s.role = some r ∧ s.label = some lb
      ∧ (sid, s) ∈ listSessions (startSession st now sid args).state (some scid) none := by
  refine ⟨{ recordScreenshots := args.recordScreenshots.getD false
            debugMode := args.debugMode.getD false
            scenarioId := some scid
            role := some r
            label := some lb }, ?_, rfl, rfl, rfl, ?_⟩
  · simp [startSession, getOrCreateSession, freshSession, hargs, hscid, hnos, hsid, hfresh,
      hrole, hr, hlabel, hl, jsOr, mapGet_set_self]
  · refine List.mem_filter.mpr ⟨?_, ?_⟩
    · apply mapGet_mem
      simp [startSession, getOrCreateSession, freshSession, hargs, hscid, hnos, hsid, hfresh,
        hrole, hr, hlabel, hl, jsOr, mapGet_set_self]
    · simp [sessionMatchesFilters]

/-- Witness for C10: the session created against the unknown scenario id
`ghost` with role `admin` and label `A` appears in `list_sessions`
filtered by `ghost`. -/
theorem C10_witness :
    ∃ s : Session,
      mapGet (startSession {} 0 "sid1"
          { scenarioId := some "ghost", role := some "admin",
            label := some "A" }).state.persistentSessions "sid1" = some s
      ∧ s.scenarioId = some "ghost" ∧ s.role = some "admin" ∧ s.label = some "A"
      ∧ ("sid1", s) ∈ listSessions (startSession {} 0 "sid1"
          { scenarioId := some "ghost", role := some "admin",
            label := some "A" }).state (some "ghost") none :=
  C10_unscoped_session_listed {} 0 "sid1" "ghost" "admin" "A"
    { scenarioId := some "ghost", role := some "admin", label := some "A" }
    rfl (by decide) rfl (by decide) rfl (by decide) rfl (by decide) rfl

theorem detachFromScenario_ps (st : ServerState) (now : Nat) (sid : String) (s : Session) :
    (detachFromScenario st now sid s).persistentSessions = st.persistentSessions := by
  cases h : s.scenarioId with
  | none => simp [detachFromScenario, h]
  | some scid =>
    by_cases he : scid = ""
    · simp [detachFromScenario, h, he]
    · cases hsc : mapGet st.testScenarios scid with
      | none => simp [detachFromScenario, h, he, hsc]
      | some scen => simp [detachFromScenario, h, he, hsc]

theorem detachFromScenario_ts_of_linked (st : ServerState) (now : Nat) (sid : String)
    (s : Session) (scid : String) (sc : TestScenario)
    (hlink : s.scenarioId = some scid) (hne : scid ≠ "")
    (hsc : mapGet st.testScenarios scid = some sc) :
    (detachFromScenario st now sid s).testScenarios =
      mapSet st.testScenarios scid (sc.removeSession now sid) := by
  simp [detachFromScenario, hlink, hne, hsc]

/-- C9: in `end_session` on a registered session linked to an existing
scenario, the membership entry is deleted before the driver close is
attempted; when the close throws, the handler returns an error result in
a state where the session is no longer a member of its scenario yet is
still present in the session registry. -/
theorem C9_membership_removed_before_close (st : ServerState) (now : Nat)
    (sid scid : String) (s : Session) (sc : TestScenario)
    (hs : mapGet st.persistentSessions sid = some s)
    (hlink : s.scenarioId = some scid) (hscid : scid ≠ "")
    (hsc : mapGet st.testScenarios scid = some sc)
    (hfail : s.closeFails = true) :
    (endSession st now sid).2.isError = true
    ∧ mapGet (endSession st now sid).1.persistentSessions sid = some s
    ∧ (mapGet (endSession st now sid).1.testScenarios scid).map
        (fun sc2 => mapGet sc2.sessions sid) = some none := by
  refine ⟨?_, ?_, ?_⟩
  · simp [endSession, hs, hfail]
  · simp only [endSession, hs, hfail, if_true]
    rw [detachFromScenario_ps]
    exact hs
  · simp only [endSession, hs, hfail, if_true]
    rw [detachFromScenario_ts_of_linked st now sid s scid sc hlink hscid hsc,
      mapGet_set_self]
    simp [removeSession_get_self]

/-- A registered session of scenario `S` whose driver close throws. -/
def failSession : Session :=
  { scenarioId := some "S", role := some "admin", label := some "A",
    closeFails := true, closeErrorMessage := "close failed" }

/-- A scenario `S` with two members `X` and `X2`. -/
def cexScenario : TestScenario :=
  ((TestScenario.create "S" 0 {}).addSession 0 "X" (some "admin") (some "A")).addSession 0
    "X2" (some "participant") (some "P1")

/-- A registry state in which scenario `S` owns the member session `X`
whose close fails. -/
def c9State : ServerState :=
  { persistentSessions := [("X", failSession)]
    testScenarios := [("S", cexScenario)] }

/-- Witness for C9 at the concrete failing-close state. -/
theorem C9_witness :
    (endSession c9State 1 "X").2.isError = true
    ∧ mapGet (endSession c9State 1 "X").1.persistentSessions "X" = some failSession
    ∧ (mapGet (endSession c9State 1 "X").1.testScenarios "S").map
        (fun sc2 => mapGet sc2.sessions "X") = some none :=
  C9_membership_removed_before_close c9State 1 "X" "S" failSession cexScenario
    (by decide) rfl (by decide) (by decide) rfl

/-- Counterexample to C2 as stated: for the registered session `X` whose
driver close fails, `end_session` does NOT remove it from the session
registry — `persistentSessions.delete` sits after the awaited closes, so
the thrown error skips it and the session is still present. -/
theorem C2_counterexample :
    (mapGet (endSession c9State 1 "X").1.persistentSessions "X").isSome = true := by
  decide

/-- C2 (amended): closing a registered session always removes its
membership entry from the owning scenario (the detach runs before the
close), but removes the session from the session registry only when the
driver close succeeds; when the close throws, the session stays
registered and the handler returns an error result. -/
theorem C2_registry_removal (st : ServerState) (now : Nat) (sid : String) (s : Session)
    (hs : mapGet st.persistentSessions sid = some s) :
    (s.closeFails = false →
        mapGet (endSession st now sid).1.persistentSessions sid = none
        ∧ (endSession st now sid).2.isError = false)
    ∧ (s.closeFails = true →
        mapGet (endSession st now sid).1.persistentSessions sid = some s
        ∧ (endSession st now sid).2.isError = true)
    ∧ (∀ (scid : String) (sc : TestScenario), s.scenarioId = some scid → scid ≠ "" →
        mapGet st.testScenarios scid = some sc →
        (mapGet (endSession st now sid).1.testScenarios scid).map
          (fun sc2 => mapGet sc2.sessions sid) = some none) := by
  refine ⟨?_, ?_, ?_⟩
  · intro hok
    refine ⟨?_, ?_⟩
    · simp only [endSession, hs, hok]
      rw [if_neg (by simp)]
      dsimp only
      rw [detachFromScenario_ps]
      exact mapGet_delete_self _ _
    · simp [endSession, hs, hok]
  · intro hfail
    refine ⟨?_, ?_⟩
    · simp only [endSession, hs, hfail, if_true]
      rw [detachFromScenario_ps]
      exact hs
    · simp [endSession, hs, hfail]
  · intro scid sc hlink hscid hsc
    have hts : (detachFromScenario st now sid s).testScenarios =
        mapSet st.testScenarios scid (sc.removeSession now sid) :=
      detachFromScenario_ts_of_linked st now sid s scid sc hlink hscid hsc
    cases hcf : s.closeFails with
    | true =>
      simp only [endSession, hs, hcf, if_true]
      rw [hts, mapGet_set_self]
      simp [removeSession_get_self]
    | false =>
      simp only [endSession, hs, hcf]
      rw [if_neg (by simp)]
      dsimp only
      rw [hts, mapGet_set_self]
      simp [removeSession_get_self]

/-- Witness for C2 (amended) at the concrete failing-close state: the
registry keeps the session, the result is an error, and the membership
entry is gone. -/
theorem C2_witness :
    (mapGet (endSession c9State 1 "X").1.persistentSessions "X" = some failSession
      ∧ (endSession c9State 1 "X").2.isError = true)
    ∧ (mapGet (endSession c9State 1 "X").1.testScenarios "S").map
        (fun sc2 => mapGet sc2.sessions "X") = some none :=
  ⟨(C2_registry_removal c9State 1 "X" failSession (by decide)).2.1 rfl,
    (C2_registry_removal c9State 1 "X" failSession (by decide)).2.2 "S" cexScenario
      rfl (by decide) (by decide)⟩

/-- C1: Cascading close. For a scenario `S` whose membership is exactly
`X1, X2`, both registered with successfully closing drivers,
`end_test_scenario(S)` removes both from the session registry, reports
`closedSessionCount = 2`, sets the scenario object's phase to
`completed`, removes `S` from the scenario registry, and a subsequent
`get_test_scenario(S)` returns NotFound. -/
theorem C1_cascading_close (st : ServerState) (now : Nat) (S X1 X2 : String)
    (i1 i2 : MemberInfo) (s1 s2 : Session) (sc : TestScenario)
    (hS : mapGet st.testScenarios S = some sc)
    (hmem : sc.sessions = [(X1, i1), (X2, i2)])
    (hne : X1 ≠ X2)
    (h1 : mapGet st.persistentSessions X1 = some s1) (h1ok : s1.closeFails = false)
    (h2 : mapGet st.persistentSessions X2 = some s2) (h2ok : s2.closeFails = false) :
    mapGet (endTestScenario st now S).state.persistentSessions X1 = none
    ∧ mapGet (endTestScenario st now S).state.persistentSessions X2 = none
    ∧ (endTestScenario st now S).closedCount = 2
    ∧ ((endTestScenario st now S).scenarioObj.map (fun sc2 => sc2.state.phase))
        = some "completed"
    ∧ mapGet (endTestScenario st now S).state.testScenarios S = none
    ∧ getTestScenario (endTestScenario st now S).state S = none := by
  have hids : sc.sessions.map Prod.fst = [X1, X2] := by rw [hmem]; rfl
  have hX2d : mapGet (mapDelete st.persistentSessions X1) X2 = some s2 :=
    (mapGet_delete_ne _ X1 X2 (Ne.symm hne)).trans h2
  have hloop : closeLoop st.persistentSessions [X1, X2] 0 =
      (mapDelete (mapDelete st.persistentSessions X1) X2, 2, none) := by
    simp [closeLoop, h1, h1ok, hX2d, h2ok]
  refine ⟨?_, ?_, ?_, ?_, ?_, ?_⟩
  · simp only [endTestScenario, hS, hids, hloop]
    exact (mapGet_delete_ne _ X2 X1 hne).trans (mapGet_delete_self _ X1)
  · simp only [endTestScenario, hS, hids, hloop]
    exact mapGet_delete_self _ X2
  · simp only [endTestScenario, hS, hids, hloop]
  · simp only [endTestScenario, hS, hids, hloop]
    simp [updateState_phase_of_truthy sc now ⟨some "completed", none⟩ "completed" rfl
      (by decide)]
  · simp only [endTestScenario, hS, hids, hloop]
    exact mapGet_delete_self _ S
  · simp only [endTestScenario, hS, hids, hloop]
    simp [getTestScenario, mapGet_delete_self]

/-- Member session `X` of scenario `S`, with a successfully closing
driver. -/
def okSessionX : Session :=
  { scenarioId := some "S", role := some "admin", label := some "A" }

/-- Member session `X2` of scenario `S`, with a successfully closing
driver. -/
def okSessionX2 : Session :=
  { scenarioId := some "S", role := some "participant", label := some "P1" }

/-- A registry state in which scenario `S` owns members `X` and `X2`,
both registered and both closable. -/
def c1State : ServerState :=
  { persistentSessions := [("X", okSessionX), ("X2", okSessionX2)]
    testScenarios := [("S", cexScenario)] }

/-- Witness for C1 at the concrete two-member state. -/
theorem C1_witness :
    mapGet (endTestScenario c1State 1 "S").state.persistentSessions "X" = none
    ∧ mapGet (endTestScenario c1State 1 "S").state.persistentSessions "X2" = none
    ∧ (endTestScenario c1State 1 "S").closedCount = 2
    ∧ ((endTestScenario c1State 1 "S").scenarioObj.map (fun sc2 => sc2.state.phase))
        = some "completed"
    ∧ mapGet (endTestScenario c1State 1 "S").state.testScenarios "S" = none
    ∧ getTestScenario (endTestScenario c1State 1 "S").state "S" = none :=
  C1_cascading_close c1State 1 "S" "X" "X2"
    { role := "admin", label := "A", status := "active", joinedAt := 0 }
    { role := "participant", label := "P1", status := "active", joinedAt := 0 }
    okSessionX okSessionX2 cexScenario
    (by decide) (by decide) (by decide) (by decide) rfl (by decide) rfl

/-- A registry state in which scenario `S` owns members `X` (whose close
fails) and `X2` (closable). -/
def c3State : ServerState :=
  { persistentSessions := [("X", failSession), ("X2", okSessionX2)]
    testScenarios := [("S", cexScenario)] }

/-- Counterexample to C3 as stated: with members `X` (close fails) and
`X2`, `end_test_scenario` does NOT close the remaining member `X2` (it
is still registered), does NOT remove the scenario, and returns an error
instead of a closed-session count. -/
theorem C3_counterexample :
    (mapGet (endTestScenario c3State 1 "S").state.persistentSessions "X2").isSome = true
    ∧ (mapGet (endTestScenario c3State 1 "S").state.testScenarios "S").isSome = true
    ∧ (endTestScenario c3State 1 "S").result.isError = true := by
  decide

/-- C3 (amended): a failure while closing the first member of a
two-member scenario aborts `end_test_scenario` — the error propagates to
the top-level catch, no member is removed from the session registry (the
remaining member is not closed), the scenario stays in the scenario
registry, and an error result is returned instead of a count. -/
theorem C3_close_failure_aborts (st : ServerState) (now : Nat) (S X1 X2 : String)
    (i1 i2 : MemberInfo) (s1 : Session) (sc : TestScenario)
    (hS : mapGet st.testScenarios S = some sc)
    (hmem : sc.sessions = [(X1, i1), (X2, i2)])
    (h1 : mapGet st.persistentSessions X1 = some s1)
    (h1bad : s1.closeFails = true) :
    (endTestScenario st now S).result.isError = true
    ∧ (endTestScenario st now S).state.persistentSessions = st.persistentSessions
    ∧ mapGet (endTestScenario st now S).state.testScenarios S = some sc
    ∧ (endTestScenario st now S).closedCount = 0 := by
  have hids : sc.sessions.map Prod.fst = [X1, X2] := by rw [hmem]; rfl
  have hloop : closeLoop st.persistentSessions [X1, X2] 0 =
      (st.persistentSessions, 0, some s1.closeErrorMessage) := by
    simp [closeLoop, h1, h1bad]
  refine ⟨?_, ?_, ?_, ?_⟩
  · simp only [endTestScenario, hS, hids, hloop]
  · simp only [endTestScenario, hS, hids, hloop]
  · simp only [endTestScenario, hS, hids, hloop]
  · simp only [endTestScenario, hS, hids, hloop]

/-- Witness for C3 (amended) at the concrete state whose first member's
close fails. -/
theorem C3_witness :
    (endTestScenario c3State 1 "S").result.isError = true
    ∧ (endTestScenario c3State 1 "S").state.persistentSessions = c3State.persistentSessions
    ∧ mapGet (endTestScenario c3State 1 "S").state.testScenarios "S" = some cexScenario
    ∧ (endTestScenario c3State 1 "S").closedCount = 0 :=
  C3_close_failure_aborts c3State 1 "S" "X" "X2"
    { role := "admin", label := "A", status := "active", joinedAt := 0 }
    { role := "participant", label := "P1", status := "active", joinedAt := 0 }
    failSession cexScenario (by decide) (by decide) (by decide) (by decide)

end PWServer
